import Mathlib

/-!
Verification development for the campy per-camera acquisition-to-disk
pipeline (campy.py, cameras/unicam.py, cameras/flir/cam.py,
writer/campipe.py).  Python functions are shallowly embedded as pure Lean
functions; Python exceptions are modeled with Except / explicit error
constructors; the Python dict and deque are modeled as association lists
and lists.
-/

set_option autoImplicit false

namespace Campy

/-- A Python runtime error relevant to the embedded code paths. -/
inductive PyErr where
  /-- ZeroDivisionError, from a modulo or division by zero. -/
  | zeroDivision
  /-- UnboundLocalError / NameError: a local variable referenced before any
      assignment executed. -/
  | unboundLocal
  /-- NameError: a name that is defined in no enclosing scope. -/
  | nameError
  /-- IndexError, from indexing an empty list. -/
  | indexError
  /-- An exception raised by writer.send, the frame-forwarding call. -/
  | sinkSendError
deriving DecidableEq, Repr

/-! ## writer/campipe.py -/

/-- campipe.py BuildFileName (lines 87-94): join camera name and record
    timestamp with an underscore, append the segment index when splitting,
    then append the base video filename. -/
def BuildFileName (cameraName record_timestamp videoFilename : String)
    (splittingVideos : Bool) (video_number : Int) : String :=
  let file_name := cameraName ++ "_" ++ record_timestamp
  let file_name :=
    if splittingVideos then file_name ++ "_" ++ toString video_number
    else file_name
  file_name ++ "_" ++ videoFilename

/-- What one write_frames attempt inside campipe.py OpenWriter does: return
    a writer, raise an Exception (caught at line 139: logged, 0.1 s sleep,
    retry), or raise KeyboardInterrupt (caught at line 143: break). -/
inductive AttemptOutcome where
  | success
  | failure
  | keyboardInterrupt
deriving DecidableEq, Repr

/-- Result of observing the OpenWriter retry loop for a bounded number of
    iterations. -/
inductive OpenResult where
  /-- The attempt with this index returned a writer; the loop exits. -/
  | opened (attempt : Nat)
  /-- A KeyboardInterrupt arrived at this attempt; the loop breaks. -/
  | interrupted (attempt : Nat)
  /-- The loop is still iterating after the observed number of attempts. -/
  | stillRetrying
deriving DecidableEq, Repr

/-- campipe.py OpenWriter (lines 116-146): an unconditional while True that
    calls write_frames; on any Exception it logs, sleeps 0.1 s and retries;
    on success or KeyboardInterrupt it breaks.  fuel is how many attempts we
    observe, k the index of the next attempt; stillRetrying means the loop
    had not exited within the observed attempts. -/
def OpenWriter (outcomes : Nat → AttemptOutcome) : Nat → Nat → OpenResult
  | 0, _ => .stillRetrying
  | fuel + 1, k =>
    match outcomes k with
    | .success => .opened k
    | .failure => OpenWriter outcomes fuel (k + 1)
    | .keyboardInterrupt => .interrupted k

/-- How the sink behaves when the consumer forwards one particular frame
    with writer.send. -/
inductive SendOutcome where
  | ok
  | raiseError
  | raiseKeyboardInterrupt
deriving DecidableEq, Repr

/-- One entry of the write queue: a raw image array (identified by a
    sequence id, tagged with how the sink will react to it) or a string;
    the producer uses the string sentinel STOP. -/
inductive Msg where
  | frame (id : Nat) (send : SendOutcome)
  | str (s : String)
deriving DecidableEq, Repr

/-- Observable actions of the consumer on video files. -/
inductive WEvent where
  | openFile (name : String)
  | closeFile (name : String)
  | writeFrame (id : Nat) (file : String)
deriving DecidableEq, Repr

/-- State of the WriteFrames loop.  files maps each file name the writer
    has opened to the number of frames written into it since it was last
    opened (opening a path anew truncates the file).  frame_count is the
    Python local of the same name: none models the unbound state, since
    line 174 assigns it only when splitting is enabled. -/
structure WState where
  currentFile : String
  files : List (String × Nat)
  frame_count : Option Nat
  stopQueue : List String
  trace : List WEvent
deriving DecidableEq, Repr

/-- Parameters of the WriteFrames loop after the setup code ran. -/
structure WParams where
  cameraName : String
  record_timestamp : String
  videoFilename : String
  /-- bool(video_split_length_sec), after clamping negatives to 0. -/
  splitting : Bool
  /-- video_split_length_frames = int(frame_rate * video_split_length_sec). -/
  splitFrames : Int
deriving DecidableEq, Repr

/-- Reset the stored frame count of a file to zero, adding it if absent: opening the
    ffmpeg writer on a path truncates that file. -/
def setFile : List (String × Nat) → String → List (String × Nat)
  | [], name => [(name, 0)]
  | (n, c) :: rest, name =>
    if n = name then (n, 0) :: rest else (n, c) :: setFile rest name

/-- Add one frame to the stored count of a file. -/
def incFile : List (String × Nat) → String → List (String × Nat)
  | [], _ => []
  | (n, c) :: rest, name =>
    if n = name then (n, c + 1) :: rest else (n, c) :: incFile rest name

/-- writer.close(): record the close of the current file. -/
def closeCurrent (st : WState) : WState :=
  { st with trace := st.trace ++ [WEvent.closeFile st.currentFile] }

/-- campipe.py PrepareNewVideo (lines 149-158): build the file name and open
    a writer on it.  OpenWriter loops until an attempt succeeds, so a sink
    that eventually opens is modeled by the open completing. -/
def openVideo (p : WParams) (splittingVideos : Bool) (video_number : Int)
    (st : WState) : WState :=
  let name := BuildFileName p.cameraName p.record_timestamp p.videoFilename
    splittingVideos video_number
  { st with currentFile := name, files := setFile st.files name,
            trace := st.trace ++ [WEvent.openFile name] }

/-- campipe.py WriteFrames lines 186-191: before popping a message, when
    splitting is enabled and frame_count is a multiple of the boundary,
    close the current writer and open the segment numbered
    frame_count // boundary.  Python evaluates the local frame_count first
    (UnboundLocalError when line 174 never ran), then the modulo
    (ZeroDivisionError when the boundary is 0).  Int.fmod / Int.fdiv match
    the floor semantics of the Python operators. -/
def rollover (p : WParams) (st : WState) : Except PyErr WState :=
  if p.splitting then
    match st.frame_count with
    | none => .error .unboundLocal
    | some fc =>
      if p.splitFrames = 0 then .error .zeroDivision
      else if Int.fmod fc p.splitFrames = 0 then
        .ok (openVideo p true (Int.fdiv fc p.splitFrames) (closeCurrent st))
      else .ok st
  else .ok st

/-- Result of running the WriteFrames loop over a queue snapshot. -/
inductive WResult where
  /-- The STOP sentinel was popped: the loop breaks and the closing code
      (line 207) closes the writer; rest is the unprocessed queue tail. -/
  | stopped (st : WState) (rest : List Msg)
  /-- An exception other than KeyboardInterrupt escaped the loop; WriteFrames
      terminates without reaching the final writer.close(). -/
  | crashed (e : PyErr) (st : WState) (rest : List Msg)
  /-- The queue snapshot is exhausted without a STOP: the loop is idling in
      the time.sleep branch, waiting for the producer. -/
  | waiting (st : WState)
deriving DecidableEq, Repr

/-- campipe.py WriteFrames main loop (lines 183-201) on a fixed snapshot of
    the write queue.  The only handler is except KeyboardInterrupt, which
    appends STOP to the stop queue and continues; frames successfully sent
    increment the local frame_count, which is unbound when splitting is
    disabled; messages that are strings other than STOP are discarded. -/
def writeLoop (p : WParams) : List Msg → WState → WResult
  | [], st => .waiting st
  | msg :: rest, st =>
    match rollover p st with
    | .error e => .crashed e st (msg :: rest)
    | .ok st1 =>
      match msg with
      | .frame id send =>
        match send with
        | .ok =>
          let st2 := { st1 with
            files := incFile st1.files st1.currentFile,
            trace := st1.trace ++ [WEvent.writeFrame id st1.currentFile] }
          match st2.frame_count with
          | none => .crashed .unboundLocal st2 rest
          | some c => writeLoop p rest { st2 with frame_count := some (c + 1) }
        | .raiseError => .crashed .sinkSendError st1 rest
        | .raiseKeyboardInterrupt =>
          writeLoop p rest { st1 with stopQueue := st1.stopQueue ++ ["STOP"] }
      | .str s =>
        if s = "STOP" then .stopped (closeCurrent st1) rest
        else writeLoop p rest st1

/-- campipe.py WriteFrames (lines 161-207): clamp a negative split length to
    0, compute the split boundary in frames, bind frame_count only when
    splitting is enabled, open the writer for segment 0, then run the loop. -/
def WriteFrames (cameraName record_timestamp videoFilename : String)
    (frameRate videoSplitLengthInSec : Int) (queue : List Msg) : WResult :=
  let sec := if videoSplitLengthInSec < 0 then 0 else videoSplitLengthInSec
  let p : WParams :=
    { cameraName := cameraName, record_timestamp := record_timestamp,
      videoFilename := videoFilename, splitting := sec != 0,
      splitFrames := frameRate * sec }
  let fname0 := BuildFileName cameraName record_timestamp videoFilename
    (sec != 0) 0
  let st0 : WState :=
    { currentFile := fname0, files := [(fname0, 0)],
      frame_count := if sec != 0 then some 0 else none,
      stopQueue := [], trace := [WEvent.openFile fname0] }
  writeLoop p queue st0

/-! ## cameras/flir/cam.py and cameras/unicam.py: the producer -/

/-- What the device returns for one GetNextImage call (flir/cam.py line
    714): a complete image carrying chunk data (image id, timestamp in
    seconds, frame id), an incomplete image, or a grab timeout (PySpin
    raises a SpinnakerException). -/
inductive DevResult where
  | frame (img : Nat) (ts : ℚ) (fid : Nat)
  | incomplete (status : Nat)
  | timeout
deriving DecidableEq, Repr

/-- Exceptions escaping flir/cam.py GrabFrame. -/
inductive GrabErr where
  /-- ImageNotCompleteException, raised at flir/cam.py line 719 with the
      image status after printing the incomplete-image message. -/
  | imageNotComplete (status : Nat)
  /-- SpinnakerException from GetNextImage when no frame arrived within the
      grab timeout. -/
  | spinTimeout
deriving DecidableEq, Repr

/-- flir/cam.py GrabFrame (lines 713-720): return the grabbed image, but
    raise ImageNotCompleteException when IsIncomplete() is true;
    GetNextImage itself raises on timeout. -/
def GrabFrame : DevResult → Except GrabErr (Nat × ℚ × Nat)
  | .frame img ts fid => .ok (img, ts, fid)
  | .incomplete status => .error (.imageNotComplete status)
  | .timeout => .error .spinTimeout

/-- One entry of the write queue as the producer sees it: an image array or
    the STOP sentinel. -/
inductive GMsg where
  | img (id : Nat)
  | stop
deriving DecidableEq, Repr

/-- State of the unicam.py GrabFrames loop: the write queue, the grabdata
    accumulator lists, the locals frameNumber / timeStamp / frameCount, and
    whether the shutdown actions ran.  timeStampVar is none while the local
    timeStamp has not been assigned by a successful grab. -/
structure GState where
  writeQueue : List GMsg
  frameNumbers : List Nat
  timeStamps : List ℚ
  frameNumber : Nat
  timeStampVar : Option ℚ
  frameCount : Nat
  cameraClosed : Bool
  metadataSaved : Bool
deriving DecidableEq, Repr

/-- The GrabFrames state at loop entry (unicam.py lines 110-111). -/
def initGState : GState :=
  { writeQueue := [], frameNumbers := [], timeStamps := [], frameNumber := 0,
    timeStampVar := none, frameCount := 0, cameraClosed := false,
    metadataSaved := false }

/-- The shutdown path shared by the stop-queue check and the grab exception
    handler (unicam.py lines 113-118 and 122-128): append STOP to the write
    queue, close the camera, save metadata, end the loop. -/
def stopAndDrain (st : GState) : GState :=
  { st with writeQueue := st.writeQueue ++ [GMsg.stop],
            cameraClosed := true, metadataSaved := true }

/-- unicam.py GrabFrames line 131-141 on a successful grab: append the
    image to the write queue, record frame id and timestamp in grabdata,
    update the locals. -/
def appendFrame (img : Nat) (ts : ℚ) (fid : Nat) (st : GState) : GState :=
  { st with writeQueue := st.writeQueue ++ [GMsg.img img],
            frameNumbers := st.frameNumbers ++ [fid],
            timeStamps := st.timeStamps ++ [ts],
            frameNumber := fid, timeStampVar := some ts,
            frameCount := st.frameCount + 1 }

/-- unicam.py GrabFrames lines 161-164: the chunked throughput report.  No
    try/except guards it.  frameCount % chunkLengthInFrames raises
    ZeroDivisionError when the chunk length is 0; on a report boundary the
    local timeStamp raises UnboundLocalError when no grab has succeeded yet,
    indexing the empty grabdata timestamp list raises IndexError, and the
    fps computation frameCount / timeElapsed raises ZeroDivisionError when
    the elapsed time is zero.  Otherwise the report only prints. -/
def chunkReport (chunkLengthInFrames : Nat) (st : GState) : Except PyErr Unit :=
  if chunkLengthInFrames = 0 then .error .zeroDivision
  else if st.frameCount % chunkLengthInFrames = 0 then
    match st.timeStampVar with
    | none => .error .unboundLocal
    | some ts =>
      match st.timeStamps with
      | [] => .error .indexError
      | t0 :: _ =>
        if ts - t0 = 0 then .error .zeroDivision
        else .ok ()
  else .ok ()

/-- One iteration of the unicam.py GrabFrames while loop (lines 112-167)
    for the flir backend with displayVideos off (the display block only
    appends to the display queue and swallows its exceptions).  Returns the
    new state and whether grabbing continues; an exception escaping the
    unguarded throughput report is returned as an error and terminates the
    producer.  Exceptions inside the frame-processing try are swallowed by
    the handler at line 144 and cannot occur for a complete frame in this
    model. -/
def grabIter (chunkLengthInFrames : Nat) (stopRequested : Bool)
    (dev : DevResult) (st : GState) : Except PyErr (GState × Bool) :=
  if stopRequested then .ok (stopAndDrain st, false)
  else
    match GrabFrame dev with
    | .error _ => .ok (stopAndDrain st, false)
    | .ok (img, ts, fid) =>
      let st1 := appendFrame img ts fid st
      match chunkReport chunkLengthInFrames st1 with
      | .error e => .error e
      | .ok _ => .ok (st1, true)

/-! ## cameras/unicam.py: SaveMetadata -/

/-- unicam.py SaveMetadata lines 226-229: zero the timestamps by
    subtracting the first one from every element (the empty case never
    reaches this code; the guard at line 221 returns first). -/
def zeroTimeStamps : List ℚ → List ℚ
  | [] => []
  | t0 :: rest => (t0 :: rest).map (fun i => i - t0)

/-- unicam.py SaveRecordingMetadata line 174: the reported total time is
    the last element of the (already zeroed) timestamp list. -/
def timeCount (zeroed : List ℚ) : ℚ := zeroed.getLastD 0

/-- How a SaveMetadata call ends. -/
inductive MetaResult where
  /-- Line 221-223: no timestamps were recorded; print the notice and
      return without writing either CSV. -/
  | noFrames
  /-- SaveRecordingMetadata line 175: fps_count = frame_count / time_count
      raises ZeroDivisionError when the elapsed time is zero (for instance
      a single-frame session); no file has been written. -/
  | zeroDivCrash (zeroed : List ℚ) (totalFrames : Nat)
  /-- SaveRecordingMetadata line 183: folder_name is a local of
      SaveMetadata and is not in scope inside SaveRecordingMetadata, so
      os.path.join(folder_name, ...) raises NameError before either the
      metadata CSV or the frametimes CSV is opened; totalFrames and
      totalTime were computed and stored in cam_params just before. -/
  | nameErrorCrash (zeroed : List ℚ) (totalFrames : Nat) (totalTime : ℚ)
deriving DecidableEq, Repr

/-- unicam.py SaveMetadata (lines 207-232) together with
    SaveRecordingMetadata (lines 170-190).  No constructor carries a
    written file because no execution path reaches a file write: the empty
    case returns early, and every non-empty case raises inside
    SaveRecordingMetadata before a file is opened. -/
def SaveMetadata (frameNumbers : List Nat) (timeStamps : List ℚ) :
    MetaResult :=
  match timeStamps with
  | [] => .noFrames
  | t0 :: rest =>
    let zeroed := zeroTimeStamps (t0 :: rest)
    let frame_count := frameNumbers.length
    let time_count := timeCount zeroed
    if time_count = 0 then .zeroDivCrash zeroed frame_count
    else .nameErrorCrash zeroed frame_count time_count

/-! ## cameras/flir/cam.py: ConfigureCustomImageSettings -/

/-- The rounding loop of flir/cam.py ConfigureCustomImageSettings (lines
    424-425, 432-433, 458-459, 486-487): increment the value until it is
    divisible by m.  The source runs it only with m = 16 and m = 4; the
    m = 0 branch is unreachable there (Python x % 0 would raise). -/
def roundUpTo (m : Nat) (x : Nat) : Nat :=
  if x % m = 0 then x
  else if m = 0 then x
  else roundUpTo m (x + 1)
termination_by (m - x % m) % m
decreasing_by
  rename_i h1 h2
  have hm2 : 2 ≤ m := by
    rcases Nat.lt_or_ge m 2 with hlt | hge
    · interval_cases m
      · exact absurd rfl h2
      · exact absurd (Nat.mod_one x) h1
    · exact hge
  have hr1 : 1 ≤ x % m := Nat.one_le_iff_ne_zero.mpr h1
  have hrm : x % m < m := Nat.mod_lt _ (by omega)
  have key : (x + 1) % m = (x % m + 1) % m := by
    conv =>
      lhs
      rw [Nat.add_mod]
    rw [Nat.mod_eq_of_lt (show 1 < m by omega)]
  rcases Nat.lt_or_ge (x % m + 1) m with hlt | hge
  · rw [key, Nat.mod_eq_of_lt hlt]
    have e1 : (m - (x % m + 1)) % m = m - (x % m + 1) :=
      Nat.mod_eq_of_lt (by omega)
    have e2 : (m - x % m) % m = m - x % m := Nat.mod_eq_of_lt (by omega)
    omega
  · have hEq : x % m + 1 = m := by omega
    rw [key, hEq, Nat.mod_self]
    have e1 : (m - 0) % m = 0 := by
      rw [Nat.sub_zero, Nat.mod_self]
    have e2 : (m - x % m) % m = m - x % m := Nat.mod_eq_of_lt (by omega)
    omega

/-- flir/cam.py ConfigureCustomImageSettings (lines 404-501), the pure
    content: the values written to the camera nodes Width, OffsetX, Height,
    OffsetY nodes, in source order, assuming the nodes are available and
    writable (that part belongs to the external Device Adapter).  Width and
    height are incremented to a multiple of 16, the offsets to a multiple
    of 4. -/
def ConfigureCustomImageSettings (frameWidth frameHeight offsetX offsetY : Nat) :
    Nat × Nat × Nat × Nat :=
  (roundUpTo 16 frameWidth, roundUpTo 4 offsetX,
   roundUpTo 16 frameHeight, roundUpTo 4 offsetY)

/-- r is the least multiple of m that is at least x. -/
def IsLeastMultipleGE (m x r : Nat) : Prop :=
  r % m = 0 ∧ x ≤ r ∧ ∀ y, y % m = 0 → x ≤ y → r ≤ y

/-! ## campy.py: FillWithDefaultParams -/

/-- A value stored in the campy.py params dictionary; the defaults are
    ints or strings. -/
inductive PVal where
  | int (n : Int)
  | str (s : String)
deriving DecidableEq, Repr

/-- Python dict lookup for the association-list model: the first binding
    for the key wins. -/
def dictFind : List (String × PVal) → String → Option PVal
  | [], _ => none
  | (k, v) :: rest, key => if k = key then some v else dictFind rest key

/-- The default_params literal of campy.py FillWithDefaultParams (lines
    106-121). -/
def default_params : List (String × PVal) :=
  [("frameRate", .int 100),
   ("cameraSettings", .str "./campy/cameras/basler/settings/acA1920-150uc_1152x1024p_100fps_trigger_RGB_p6.pfs"),
   ("cameraMake", .str "flir"),
   ("cameraTrigger", .str "Line3"),
   ("pixelFormatInput", .str "bayer_rggb8"),
   ("pixelFormatOutput", .str "rgb0"),
   ("frameWidth", .int 1152),
   ("frameHeight", .int 1024),
   ("ffmpegLogLevel", .str "quiet"),
   ("gpuID", .int (-1)),
   ("gpuMake", .str "nvidia"),
   ("codec", .str "h264"),
   ("quality", .str "21"),
   ("chunkLengthInSec", .int 60),
   ("displayFrameRate", .int 10),
   ("displayDownsample", .int 2)]

/-- The loop of campy.py FillWithDefaultParams (lines 123-125): for each
    default key not present in cam_params, add the default binding. -/
def fillLoop : List (String × PVal) → List (String × PVal) →
    List (String × PVal)
  | [], cam_params => cam_params
  | kv :: rest, cam_params =>
    fillLoop rest
      (if (dictFind cam_params kv.1).isSome then cam_params
       else cam_params ++ [kv])

/-- campy.py FillWithDefaultParams (lines 104-126). -/
def FillWithDefaultParams (cam_params : List (String × PVal)) :
    List (String × PVal) :=
  fillLoop default_params cam_params

/-- A WriteFrames parameter record with splitting disabled, used to
    instantiate general consumer theorems. -/
def exampleWParams : WParams :=
  { cameraName := "camA", record_timestamp := "2021",
    videoFilename := "video.mp4", splitting := false, splitFrames := 0 }

/-- The consumer state right after WriteFrames opened segment 0 with
    splitting disabled. -/
def exampleWState : WState :=
  { currentFile := "camA_2021_video.mp4",
    files := [("camA_2021_video.mp4", 0)], frame_count := none,
    stopQueue := [], trace := [WEvent.openFile "camA_2021_video.mp4"] }

/-! ## Helper lemmas -/

theorem openWriter_allFail (fuel k : Nat) :
    OpenWriter (fun _ => AttemptOutcome.failure) fuel k =
      OpenResult.stillRetrying := by
  induction fuel generalizing k with
  | zero => rfl
  | succ n ih => simpa [OpenWriter] using ih (k + 1)

theorem getLastD_map_sub (f : ℚ → ℚ) :
    ∀ (rest : List ℚ) (t0 d1 d2 : ℚ),
      ((t0 :: rest).map f).getLastD d1 = f ((t0 :: rest).getLastD d2) := by
  intro rest
  induction rest with
  | nil => intro t0 d1 d2; rfl
  | cons a l ih =>
    intro t0 d1 d2
    simpa [List.getLastD_cons] using ih a (f t0) t0

theorem roundUpTo_spec (m x : Nat) (hm : m ≠ 0) :
    IsLeastMultipleGE m x (roundUpTo m x) := by
  induction x using roundUpTo.induct m with
  | case1 x h0 =>
    rw [roundUpTo, if_pos h0]
    exact ⟨h0, Nat.le_refl x, fun y _ hxy => hxy⟩
  | case2 x h0 hm0 => exact absurd hm0 hm
  | case3 x h0 hm0 ih =>
    rw [roundUpTo, if_neg h0, if_neg hm0]
    obtain ⟨ihmod, ihle, ihmin⟩ := ih
    refine ⟨ihmod, Nat.le_trans (Nat.le_succ x) ihle, ?_⟩
    intro y hy hxy
    have hyx : y ≠ x := fun hEq => h0 (hEq ▸ hy)
    exact ihmin y hy (by omega)

theorem dictFind_append (d1 d2 : List (String × PVal)) (k : String) :
    dictFind (d1 ++ d2) k =
      match dictFind d1 k with
      | some v => some v
      | none => dictFind d2 k := by
  induction d1 with
  | nil => rfl
  | cons kv rest ih =>
    obtain ⟨k1, v1⟩ := kv
    by_cases hk : k1 = k
    · simp [dictFind, hk]
    · simpa [dictFind, hk] using ih

theorem fillLoop_preserves :
    ∀ (defaults d : List (String × PVal)) (k : String) (v : PVal),
      dictFind d k = some v → dictFind (fillLoop defaults d) k = some v := by
  intro defaults
  induction defaults with
  | nil => intro d k v h; exact h
  | cons kv rest ih =>
    intro d k v h
    rw [fillLoop]
    by_cases hmem : (dictFind d kv.1).isSome
    · rw [if_pos hmem]; exact ih d k v h
    · rw [if_neg hmem]
      refine ih _ k v ?_
      rw [dictFind_append, h]

theorem fillLoop_absent :
    ∀ (defaults d : List (String × PVal)) (k : String),
      dictFind d k = none →
      dictFind (fillLoop defaults d) k = dictFind defaults k := by
  intro defaults
  induction defaults with
  | nil => intro d k h; exact h
  | cons kv rest ih =>
    intro d k h
    obtain ⟨k1, v1⟩ := kv
    rw [fillLoop]
    by_cases hk : k1 = k
    · subst hk
      have hnone : ¬ (dictFind d k1).isSome := by rw [h]; simp
      rw [if_neg hnone]
      have hfound : dictFind (d ++ [(k1, v1)]) k1 = some v1 := by
        rw [dictFind_append, h]; simp [dictFind]
      rw [fillLoop_preserves rest _ k1 v1 hfound]
      simp [dictFind]
    · have hrec : dictFind rest k = dictFind ((k1, v1) :: rest) k := by
        simp [dictFind, hk]
      by_cases hmem : (dictFind d (k1, v1).1).isSome
      · rw [if_pos hmem, ih d k h, hrec]
      · rw [if_neg hmem]
        have h2 : dictFind (d ++ [(k1, v1)]) k = none := by
          rw [dictFind_append, h]; simp [dictFind, hk]
        rw [ih _ k h2, hrec]

/-! ## Claim theorems -/

/-- C1, counterexample: at a concrete Incomplete grab, one iteration of the
    producer loop pushes a Stop token onto the frame queue and ends the loop
    (continue flag false), contradicting the claim that an Incomplete frame
    never causes a Stop push and never terminates the producer. -/
theorem C1_counterexample :
    grabIter 100 false (DevResult.incomplete 7) initGState =
      .ok
        ({ initGState with
            writeQueue := [GMsg.stop]
            cameraClosed := true
            metadataSaved := true }, false) := rfl

/-- C1, amended: an Incomplete grab makes flir GrabFrame raise
    ImageNotCompleteException, and the grab handler of the producer treats it
    exactly like a timeout: it logs, pushes a Stop token onto the frame
    queue, closes the camera, saves metadata and terminates the loop; the
    frame is not enqueued. -/
theorem C1_theorem (chunkLengthInFrames status : Nat) (st : GState) :
    grabIter chunkLengthInFrames false (DevResult.incomplete status) st =
      .ok (stopAndDrain st, false) := rfl

/-- C2, counterexample: with splitting enabled, a queue holding a good
    frame, a frame whose forwarding raises, another good frame and STOP,
    the consumer writes frame 1, then crashes on frame 2; frame 3 and the
    STOP token are never processed and the final close never runs —
    contradicting the claim that a forwarding failure is logged, the frame
    dropped and the loop continues. -/
theorem C2_counterexample :
    WriteFrames "camA" "2021" "video.mp4" 10 1
      [Msg.frame 1 .ok, Msg.frame 2 .raiseError, Msg.frame 3 .ok,
       Msg.str "STOP"] =
    .crashed .sinkSendError
      { currentFile := "camA_2021_0_video.mp4",
        files := [("camA_2021_0_video.mp4", 1)], frame_count := some 1,
        stopQueue := [],
        trace := [WEvent.openFile "camA_2021_0_video.mp4",
                  WEvent.closeFile "camA_2021_0_video.mp4",
                  WEvent.openFile "camA_2021_0_video.mp4",
                  WEvent.writeFrame 1 "camA_2021_0_video.mp4"] }
      [Msg.frame 3 .ok, Msg.str "STOP"] := rfl

/-- C2, amended: the consumer loop catches only KeyboardInterrupt.  A frame
    forwarding failure propagates uncaught and terminates the recording
    loop at once: the failing frame and every later queue entry are left
    unprocessed and the final close is skipped.  A KeyboardInterrupt during
    forwarding is caught: it appends STOP to the stop queue of the producer and
    the loop continues with the next entry (that frame is dropped). -/
theorem C2_theorem :
    (∀ (p : WParams) (st st1 : WState) (id : Nat) (rest : List Msg),
        rollover p st = .ok st1 →
        writeLoop p (Msg.frame id .raiseError :: rest) st =
          .crashed .sinkSendError st1 rest) ∧
    (∀ (p : WParams) (st st1 : WState) (id : Nat) (rest : List Msg),
        rollover p st = .ok st1 →
        writeLoop p (Msg.frame id .raiseKeyboardInterrupt :: rest) st =
          writeLoop p rest
            { st1 with stopQueue := st1.stopQueue ++ ["STOP"] }) := by
  constructor
  · intro p st st1 id rest h
    simp [writeLoop, h]
  · intro p st st1 id rest h
    simp [writeLoop, h]

/-- C2, witness for the amended theorem at a concrete state. -/
theorem C2_witness :
    writeLoop exampleWParams [Msg.frame 5 .raiseError] exampleWState =
      .crashed .sinkSendError exampleWState [] ∧
    writeLoop exampleWParams [Msg.frame 5 .raiseKeyboardInterrupt]
        exampleWState =
      writeLoop exampleWParams []
        { exampleWState with
          stopQueue := exampleWState.stopQueue ++ ["STOP"] } :=
  ⟨C2_theorem.1 exampleWParams exampleWState exampleWState 5 [] rfl,
   C2_theorem.2 exampleWParams exampleWState exampleWState 5 [] rfl⟩

/-- C3: evaluating the consumer at the failing input.  With splitting
    disabled (videoSplitLengthInSec = 0) the local frame_count is never
    assigned (campipe.py line 174 is guarded), yet line 195 increments
    it after every successful send: the first forwarded frame raises
    UnboundLocalError, the loop dies after writing frame 1, and the
    remaining frames and the STOP token are never processed — the code
    contradicts its own single-video path announced at line 167. -/
theorem C3_theorem :
    WriteFrames "camA" "2021" "video.mp4" 10 0
      [Msg.frame 1 .ok, Msg.frame 2 .ok, Msg.frame 3 .ok, Msg.str "STOP"] =
    .crashed .unboundLocal
      { currentFile := "camA_2021_video.mp4",
        files := [("camA_2021_video.mp4", 1)], frame_count := none,
        stopQueue := [],
        trace := [WEvent.openFile "camA_2021_video.mp4",
                  WEvent.writeFrame 1 "camA_2021_video.mp4"] }
      [Msg.frame 2 .ok, Msg.frame 3 .ok, Msg.str "STOP"] := rfl

/-- C4, counterexample: reading bounded retry as the existence of a bound
    after which an all-failing open no longer keeps retrying (it must have
    escalated), no such bound exists: OpenWriter loops for every observed
    number of attempts. -/
theorem C4_counterexample :
    ¬ ∃ B : Nat, ∀ fuel : Nat, B < fuel →
        OpenWriter (fun _ => AttemptOutcome.failure) fuel 0 ≠
          OpenResult.stillRetrying :=
  fun ⟨B, hB⟩ => hB (B + 1) (Nat.lt_succ_self B) (openWriter_allFail (B + 1) 0)

/-- C4, amended: a Frame Sink open failure is retried with a 0.1 s backoff
    indefinitely: each failing attempt leads to the next attempt, a
    successful attempt returns the writer, and when every attempt fails the
    loop is still retrying after any number of attempts — open failures
    never escalate to a session-fatal error. -/
theorem C4_theorem :
    (∀ (outcomes : Nat → AttemptOutcome) (fuel k : Nat),
        outcomes k = .failure →
        OpenWriter outcomes (fuel + 1) k = OpenWriter outcomes fuel (k + 1)) ∧
    (∀ (outcomes : Nat → AttemptOutcome) (fuel k : Nat),
        outcomes k = .success →
        OpenWriter outcomes (fuel + 1) k = .opened k) ∧
    (∀ fuel k : Nat,
        OpenWriter (fun _ => AttemptOutcome.failure) fuel k =
          OpenResult.stillRetrying) := by
  refine ⟨?_, ?_, openWriter_allFail⟩
  · intro outcomes fuel k h
    simp [OpenWriter, h]
  · intro outcomes fuel k h
    simp [OpenWriter, h]

/-- C4, witness for the amended theorem at concrete attempt sequences. -/
theorem C4_witness :
    OpenWriter (fun _ => AttemptOutcome.failure) 6 0 =
      OpenWriter (fun _ => AttemptOutcome.failure) 5 1 ∧
    OpenWriter (fun _ => AttemptOutcome.success) 1 0 = .opened 0 ∧
    OpenWriter (fun _ => AttemptOutcome.failure) 1000 0 =
      OpenResult.stillRetrying :=
  ⟨C4_theorem.1 (fun _ => AttemptOutcome.failure) 5 0 rfl,
   C4_theorem.2.1 (fun _ => AttemptOutcome.success) 0 0 rfl,
   C4_theorem.2.2 1000 0⟩

/-- C5, counterexample: with chunkLengthInFrames = 1, the very first
    successful grab lands on a report boundary with zero elapsed time, and
    the unguarded fps division raises ZeroDivisionError: the iteration
    returns an error, terminating the acquisition loop — contradicting the
    claim that evaluating the report cannot raise and cannot terminate the
    loop. -/
theorem C5_counterexample :
    grabIter 1 false (DevResult.frame 0 5 3) initGState =
      .error .zeroDivision := by
  norm_num [grabIter, GrabFrame, appendFrame, chunkReport, initGState]

/-- C5, amended: the throughput report is guarded by no handler and can
    raise.  With a chunk length of 0 every iteration raises
    ZeroDivisionError from the modulo; on a report boundary it raises
    UnboundLocalError when no grab has succeeded yet and ZeroDivisionError
    when the elapsed time of the chunk is zero; off the boundary it does
    nothing.  An exception from the report terminates the acquisition loop
    (the frame of that iteration is already enqueued), and when the report
    evaluates cleanly the effect of the iteration is exactly the frame append —
    the report changes no state. -/
theorem C5_theorem :
    (∀ st : GState, chunkReport 0 st = .error .zeroDivision) ∧
    (∀ (n : Nat) (st : GState), n ≠ 0 → st.frameCount % n ≠ 0 →
        chunkReport n st = .ok ()) ∧
    (∀ (n : Nat) (st : GState) (ts t0 : ℚ) (l : List ℚ),
        n ≠ 0 → st.frameCount % n = 0 → st.timeStampVar = some ts →
        st.timeStamps = t0 :: l → ts - t0 = 0 →
        chunkReport n st = .error .zeroDivision) ∧
    (∀ (n : Nat) (st : GState), n ≠ 0 → st.frameCount % n = 0 →
        st.timeStampVar = none → chunkReport n st = .error .unboundLocal) ∧
    (∀ (n img fid : Nat) (ts : ℚ) (st : GState) (e : PyErr),
        chunkReport n (appendFrame img ts fid st) = .error e →
        grabIter n false (DevResult.frame img ts fid) st = .error e) ∧
    (∀ (n img fid : Nat) (ts : ℚ) (st : GState),
        chunkReport n (appendFrame img ts fid st) = .ok () →
        grabIter n false (DevResult.frame img ts fid) st =
          .ok (appendFrame img ts fid st, true)) := by
  refine ⟨?_, ?_, ?_, ?_, ?_, ?_⟩
  · intro st
    simp [chunkReport]
  · intro n st hn hb
    simp [chunkReport, hn, hb]
  · intro n st ts t0 l hn hb hts hlist hzero
    simp [chunkReport, hn, hb, hts, hlist, hzero]
  · intro n st hn hb hts
    simp [chunkReport, hn, hb, hts]
  · intro n img fid ts st e h
    simp [grabIter, GrabFrame, h]
  · intro n img fid ts st h
    simp [grabIter, GrabFrame, h]

/-- C5, witness for the amended theorem at concrete states, one conjunct
    each. -/
theorem C5_witness :
    chunkReport 0 initGState = .error .zeroDivision ∧
    chunkReport 2 (appendFrame 0 5 3 initGState) = .ok () ∧
    chunkReport 1 (appendFrame 0 5 3 initGState) = .error .zeroDivision ∧
    chunkReport 1 initGState = .error .unboundLocal ∧
    grabIter 1 false (DevResult.frame 0 5 3) initGState =
      .error .zeroDivision ∧
    grabIter 2 false (DevResult.frame 0 5 3) initGState =
      .ok (appendFrame 0 5 3 initGState, true) :=
  have h3 : chunkReport 1 (appendFrame 0 5 3 initGState) =
      .error .zeroDivision :=
    C5_theorem.2.2.1 1 (appendFrame 0 5 3 initGState) 5 5 []
      (by decide) rfl rfl rfl (sub_self (5 : ℚ))
  have h2 : chunkReport 2 (appendFrame 0 5 3 initGState) = .ok () :=
    C5_theorem.2.1 2 (appendFrame 0 5 3 initGState) (by decide) (by decide)
  ⟨C5_theorem.1 initGState, h2, h3,
   C5_theorem.2.2.2.1 1 initGState (by decide) rfl rfl,
   C5_theorem.2.2.2.2.1 1 0 3 5 initGState .zeroDivision h3,
   C5_theorem.2.2.2.2.2 2 0 3 5 initGState h2⟩

/-- C6: with a split boundary of 10 frames (frameRate 10, split length 1 s)
    and 25 frames followed by STOP, the consumer produces exactly the three
    files with segment indices 0, 1, 2 holding 10, 10 and 5 frames, and the
    event trace shows every rollover (close of the current file, open of
    the next) happening before the first write of the new segment, each
    write going entirely to one file. -/
theorem C6_theorem :
    WriteFrames "camA" "2021" "video.mp4" 10 1
      ((List.range 25).map (fun i => Msg.frame (i + 1) .ok) ++
        [Msg.str "STOP"]) =
    .stopped
      { currentFile := "camA_2021_2_video.mp4",
        files := [("camA_2021_0_video.mp4", 10),
                  ("camA_2021_1_video.mp4", 10),
                  ("camA_2021_2_video.mp4", 5)],
        frame_count := some 25, stopQueue := [],
        trace :=
          [WEvent.openFile "camA_2021_0_video.mp4",
           WEvent.closeFile "camA_2021_0_video.mp4",
           WEvent.openFile "camA_2021_0_video.mp4"] ++
          (List.range 10).map
            (fun i => WEvent.writeFrame (i + 1) "camA_2021_0_video.mp4") ++
          [WEvent.closeFile "camA_2021_0_video.mp4",
           WEvent.openFile "camA_2021_1_video.mp4"] ++
          (List.range 10).map
            (fun i => WEvent.writeFrame (i + 11) "camA_2021_1_video.mp4") ++
          [WEvent.closeFile "camA_2021_1_video.mp4",
           WEvent.openFile "camA_2021_2_video.mp4"] ++
          (List.range 5).map
            (fun i => WEvent.writeFrame (i + 21) "camA_2021_2_video.mp4") ++
          [WEvent.closeFile "camA_2021_2_video.mp4"] }
      [] := by
  rfl

/-- C7: feeding timestamps 100, 100.5, 101 into the metadata zeroing yields
    0, 0.5, 1 with total time 1; in general, for every non-empty timestamp
    list, zeroing subtracts the first timestamp from every element and the
    reported time count equals the last timestamp minus the first. -/
theorem C7_theorem :
    (zeroTimeStamps [100, 100.5, 101] = [0, 0.5, 1] ∧
     timeCount (zeroTimeStamps [100, 100.5, 101]) = 1) ∧
    ∀ ts : List ℚ, ts ≠ [] →
      zeroTimeStamps ts = ts.map (fun i => i - ts.headD 0) ∧
      timeCount (zeroTimeStamps ts) = ts.getLastD 0 - ts.headD 0 := by
  constructor
  · constructor
    · norm_num [zeroTimeStamps]
    · norm_num [zeroTimeStamps, timeCount]
  · intro ts hts
    match ts, hts with
    | t0 :: rest, _ =>
      constructor
      · rfl
      · simpa [zeroTimeStamps, timeCount] using
          getLastD_map_sub (fun i => i - t0) rest t0 0 t0

/-- C7, witness: the general statement applied to the concrete list. -/
theorem C7_witness :
    zeroTimeStamps [100, 100.5, 101] =
      ([100, 100.5, 101] : List ℚ).map
        (fun i => i - ([100, 100.5, 101] : List ℚ).headD 0) ∧
    timeCount (zeroTimeStamps [100, 100.5, 101]) =
      ([100, 100.5, 101] : List ℚ).getLastD 0 -
        ([100, 100.5, 101] : List ℚ).headD 0 :=
  C7_theorem.2 [100, 100.5, 101] (List.cons_ne_nil _ _)

/-- C8: the values the FLIR adapter writes to the Width, OffsetX, Height
    and OffsetY nodes are the least multiples of 16, 4, 16, 4 at or above
    the requested values (a value already on the boundary is unchanged),
    and the concrete request 1150 x 1020 at offset (5, 3) is set as
    1152 x 1024 at offset (8, 4). -/
theorem C8_theorem :
    (∀ w h ox oy : Nat,
       IsLeastMultipleGE 16 w (ConfigureCustomImageSettings w h ox oy).1 ∧
       IsLeastMultipleGE 4 ox (ConfigureCustomImageSettings w h ox oy).2.1 ∧
       IsLeastMultipleGE 16 h
         (ConfigureCustomImageSettings w h ox oy).2.2.1 ∧
       IsLeastMultipleGE 4 oy
         (ConfigureCustomImageSettings w h ox oy).2.2.2) ∧
    ConfigureCustomImageSettings 1150 1020 5 3 = (1152, 8, 1024, 4) := by
  constructor
  · intro w h ox oy
    exact ⟨roundUpTo_spec 16 w (by decide), roundUpTo_spec 4 ox (by decide),
           roundUpTo_spec 16 h (by decide), roundUpTo_spec 4 oy (by decide)⟩
  · have key : ∀ m x target : Nat, m ≠ 0 → target % m = 0 → x ≤ target →
        target < x + m → target ≤ roundUpTo m x → roundUpTo m x = target := by
      intro m x target hm htm hxt htlt hge
      obtain ⟨hmod, hle, hmin⟩ := roundUpTo_spec m x hm
      exact Nat.le_antisymm (hmin target htm hxt) hge
    have h16 : roundUpTo 16 1150 = 1152 := by
      obtain ⟨hmod, hle, hmin⟩ := roundUpTo_spec 16 1150 (by decide)
      have h1 := hmin 1152 (by decide) (by decide)
      omega
    have h16b : roundUpTo 16 1020 = 1024 := by
      obtain ⟨hmod, hle, hmin⟩ := roundUpTo_spec 16 1020 (by decide)
      have h1 := hmin 1024 (by decide) (by decide)
      omega
    have h4 : roundUpTo 4 5 = 8 := by
      obtain ⟨hmod, hle, hmin⟩ := roundUpTo_spec 4 5 (by decide)
      have h1 := hmin 8 (by decide) (by decide)
      omega
    have h4b : roundUpTo 4 3 = 4 := by
      obtain ⟨hmod, hle, hmin⟩ := roundUpTo_spec 4 3 (by decide)
      have h1 := hmin 4 (by decide) (by decide)
      omega
    simp [ConfigureCustomImageSettings, h16, h16b, h4, h4b]

/-- C8, witness: the general minimality applied at the concrete request. -/
theorem C8_witness :
    ConfigureCustomImageSettings 1150 1020 5 3 = (1152, 8, 1024, 4) ∧
    (ConfigureCustomImageSettings 1150 1020 5 3).1 ≤ 1152 :=
  ⟨C8_theorem.2,
   (C8_theorem.1 1150 1020 5 3).1.2.2 1152 (by decide) (by decide)⟩

/-- C9: evaluating metadata persistence.  With no recorded timestamps,
    SaveMetadata skips persistence and reports the no-frames condition (the
    first half of the claim holds).  With frames recorded, the claim says both
    the summary record and the timestamp table are written, but
    SaveRecordingMetadata references folder_name — a local of SaveMetadata
    that is not in scope there — and raises NameError before opening any
    file, after computing the zeroed timestamps, frame count and total
    time: neither file is ever written. -/
theorem C9_theorem :
    SaveMetadata [] [] = .noFrames ∧
    SaveMetadata [1, 2, 3] [100, 100.5, 101] =
      .nameErrorCrash [0, 0.5, 1] 3 1 := by
  constructor
  · rfl
  · norm_num [SaveMetadata, zeroTimeStamps, timeCount]

/-- C10: FillWithDefaultParams never changes a key already present in the
    camera parameter map — lookup after filling returns the original
    value — and a key absent from the map receives exactly the default
    binding for that key (none when the key has no default). -/
theorem C10_theorem (cam_params : List (String × PVal)) (key : String) :
    (∀ v : PVal, dictFind cam_params key = some v →
        dictFind (FillWithDefaultParams cam_params) key = some v) ∧
    (dictFind cam_params key = none →
        dictFind (FillWithDefaultParams cam_params) key =
          dictFind default_params key) :=
  ⟨fun v h => fillLoop_preserves default_params cam_params key v h,
   fun h => fillLoop_absent default_params cam_params key h⟩

/-- C10, witness: a map carrying frameRate 7 keeps it after filling, and
    the absent codec key receives the default h264. -/
theorem C10_witness :
    dictFind (FillWithDefaultParams [("frameRate", PVal.int 7)])
      "frameRate" = some (PVal.int 7) ∧
    dictFind (FillWithDefaultParams [("frameRate", PVal.int 7)])
      "codec" = some (PVal.str "h264") :=
  ⟨(C10_theorem [("frameRate", PVal.int 7)] "frameRate").1
      (PVal.int 7) rfl,
   ((C10_theorem [("frameRate", PVal.int 7)] "codec").2 rfl).trans rfl⟩

end Campy
